import Mathlib

/-!
# Verification of the LLM council pipeline specification

Shallow embedding of the backend of `llm-ttcc-team-pro` (multi-stage
concurrent LLM query pipeline) together with proofs of the specified
properties: storage-append atomicity under concurrent writers, stage-timeout
task cleanup, cancellation-safe persistence on client disconnect, execution
modes, stage-field omission in stored messages, configuration validation,
calculator-tool safety, and runtime-settings totality.

Numeric conventions: Python machine floats are modelled as rationals (`ℚ`);
the verified properties concern control flow (error confinement, totality,
which fields/events are produced), never floating-point accuracy.
-/

namespace LlmCouncil

/-! ## backend/config.py -/

/-- Configuration state relevant to `validate_openrouter_config`
(`backend/config.py`): `ROUTER_TYPE` and `OPENROUTER_API_KEY`.
`OPENROUTER_API_KEY` comes from `os.getenv`, hence `none` when the variable
is absent; `some ""` models an empty value. -/
structure Config where
  router_type : String
  openrouter_api_key : Option String
  deriving DecidableEq, Repr

/-- Python truthiness of an optional string: `not OPENROUTER_API_KEY` is
true when the key is `None` or the empty string. -/
def pyFalsyOptStr : Option String → Bool
  | none => true
  | some s => s.isEmpty

/-- The error message raised in `backend/config.py`. -/
def openrouterKeyErrorMsg : String :=
  "OPENROUTER_API_KEY is required when ROUTER_TYPE=openrouter. Get your key at https://openrouter.ai/ or use ROUTER_TYPE=ollama for local models."

/-- `validate_openrouter_config` from `backend/config.py`: raises
`ValueError` (modelled as `Except.error`) exactly when
`ROUTER_TYPE == "openrouter"` and the API key is falsy. -/
def validate_openrouter_config (c : Config) : Except String Unit :=
  if c.router_type = "openrouter" ∧ pyFalsyOptStr c.openrouter_api_key then
    Except.error openrouterKeyErrorMsg
  else
    Except.ok ()

/-- Modelled from the spec: the per-model task launch prelude of
`backend/openrouter.py` / `backend/ollama.py` (not under `src/`; only their
tests are). Per §7(e) of the spec, configuration errors are "fatal, surfaced
immediately at request start, before any task is launched": validation runs
first and on failure no per-model task is scheduled. On success one task per
model is launched. -/
def stage_setup (c : Config) (models : List String) : Except String (List String) :=
  match validate_openrouter_config c with
  | Except.error e => Except.error e
  | Except.ok _ => Except.ok models

/-- Tasks actually launched by a setup attempt: none on a setup failure. -/
def tasksLaunched : Except String (List String) → List String
  | Except.error _ => []
  | Except.ok ts => ts

/-! ## backend/runtime_settings.py -/

/-- Minimal JSON value domain, as produced by `json.loads`. -/
inductive JValue where
  | jnull : JValue
  | jbool : Bool → JValue
  | jnum : ℚ → JValue
  | jstr : String → JValue
  | jarr : List JValue → JValue
  | jobj : List (String × JValue) → JValue

/-- Python truthiness of a parsed JSON value (`if not raw`). -/
def pyTruthy : JValue → Bool
  | JValue.jnull => false
  | JValue.jbool b => b
  | JValue.jnum q => q ≠ 0
  | JValue.jstr s => ¬ s.isEmpty
  | JValue.jarr xs => ¬ xs.isEmpty
  | JValue.jobj fs => ¬ fs.isEmpty

def DEFAULT_STAGE1_PROMPT_TEMPLATE : String := "{full_query}"

def DEFAULT_STAGE2_PROMPT_TEMPLATE : String :=
  "You are evaluating different responses to the following question:\n\nQuestion: {user_query}\n\nHere are the responses from different models (anonymized):\n\n{responses_text}\n\nYour task:\n1. First, evaluate each response individually. For each response, explain what it does well and what it does poorly.\n2. Then, at the very end of your response, provide a final ranking.\n\nIMPORTANT: Your final ranking MUST be formatted EXACTLY as follows:\n- Start with the line \"FINAL RANKING:\" (all caps, with colon)\n- Then list the responses from best to worst as a numbered list\n- Each line should be: number, period, space, then ONLY the response label (e.g., \"1. Response A\")\n- Do not add any other text or explanations in the ranking section\n\nExample of the correct format for your ENTIRE response:\n\nResponse A provides good detail on X but misses Y...\nResponse B is accurate but lacks depth on Z...\nResponse C offers the most comprehensive answer...\n\nFINAL RANKING:\n1. Response C\n2. Response A\n3. Response B\n\nNow provide your evaluation and ranking:"

def DEFAULT_STAGE3_PROMPT_TEMPLATE : String :=
  "You are the Chairman of an LLM-TTCC-TEAM-PRO council. Multiple AI models have provided responses to a user\x27s question, and then ranked each other\x27s responses.\n\nOriginal Question: {user_query}\n\nSTAGE 1 - Individual Responses:\n{stage1_text}\n\n{rankings_block}{tools_text}\n\nYour task as Chairman is to synthesize all of this information into a single, comprehensive, accurate answer to the user\x27s original question. Consider:\n- The individual responses and their insights\n- The peer rankings and what they reveal about response quality (if available)\n- Any patterns of agreement or disagreement\n\nProvide a clear, well-reasoned final answer that represents the council\x27s collective wisdom:"

/-- `RuntimeSettings` from `backend/runtime_settings.py`: prompt templates,
per-stage temperatures (pydantic constraints `0.0 ≤ _ ≤ 2.0`), and web-search
options. -/
structure RuntimeSettings where
  stage1_prompt_template : String
  stage2_prompt_template : String
  stage3_prompt_template : String
  council_temperature : ℚ
  stage2_temperature : ℚ
  chairman_temperature : ℚ
  web_search_provider : String
  web_max_results : ℤ
  web_full_content_results : ℤ
  deriving DecidableEq, Repr

/-- `default_runtime_settings` from `backend/runtime_settings.py`. -/
def default_runtime_settings : RuntimeSettings :=
  { stage1_prompt_template := DEFAULT_STAGE1_PROMPT_TEMPLATE
    stage2_prompt_template := DEFAULT_STAGE2_PROMPT_TEMPLATE
    stage3_prompt_template := DEFAULT_STAGE3_PROMPT_TEMPLATE
    council_temperature := 1/2
    stage2_temperature := 3/10
    chairman_temperature := 2/5
    web_search_provider := "duckduckgo"
    web_max_results := 5
    web_full_content_results := 0 }

/-- State of the settings file on disk: absent, unreadable (I/O error or
invalid JSON, both swallowed by `_read_json_file`), or parsed JSON. -/
inductive SettingsFileState where
  | absent : SettingsFileState
  | unreadable : SettingsFileState
  | parsed : JValue → SettingsFileState

/-- `_read_json_file` from `backend/runtime_settings.py`: `None` when the
file is missing or reading/parsing raises; otherwise the parsed JSON. -/
def _read_json_file : SettingsFileState → Option JValue
  | SettingsFileState.absent => none
  | SettingsFileState.unreadable => none
  | SettingsFileState.parsed j => some j

/-- Pydantic string-field validation: present value must be a string,
absent falls back to the default. -/
def validateStrField (fields : List (String × JValue)) (key : String)
    (dflt : String) : Except String String :=
  match fields.lookup key with
  | none => Except.ok dflt
  | some (JValue.jstr s) => Except.ok s
  | some _ => Except.error ("Input should be a valid string: " ++ key)

/-- Pydantic bounded numeric field validation (`ge`/`le` constraints). -/
def validateNumField (fields : List (String × JValue)) (key : String)
    (dflt lo hi : ℚ) : Except String ℚ :=
  match fields.lookup key with
  | none => Except.ok dflt
  | some (JValue.jnum q) =>
      if lo ≤ q ∧ q ≤ hi then Except.ok q
      else Except.error ("Input should be within bounds: " ++ key)
  | some _ => Except.error ("Input should be a valid number: " ++ key)

/-- Pydantic bounded integer field validation (`ge`/`le` constraints):
the value must be integral. -/
def validateIntField (fields : List (String × JValue)) (key : String)
    (dflt lo hi : ℤ) : Except String ℤ :=
  match fields.lookup key with
  | none => Except.ok dflt
  | some (JValue.jnum q) =>
      if q.den = 1 ∧ lo ≤ q.num ∧ q.num ≤ hi then Except.ok q.num
      else Except.error ("Input should be a valid integer within bounds: " ++ key)
  | some _ => Except.error ("Input should be a valid integer: " ++ key)

/-- Pydantic validation of `RuntimeSettings(**raw)`: `raw` must be a JSON
object (a non-mapping raises `TypeError`); each field is checked against its
type and bounds, missing fields take their defaults. -/
def validateRuntimeSettings : JValue → Except String RuntimeSettings
  | JValue.jobj fields => do
      let t1 ← validateStrField fields "stage1_prompt_template" DEFAULT_STAGE1_PROMPT_TEMPLATE
      let t2 ← validateStrField fields "stage2_prompt_template" DEFAULT_STAGE2_PROMPT_TEMPLATE
      let t3 ← validateStrField fields "stage3_prompt_template" DEFAULT_STAGE3_PROMPT_TEMPLATE
      let ct ← validateNumField fields "council_temperature" (1/2) 0 2
      let s2t ← validateNumField fields "stage2_temperature" (3/10) 0 2
      let cht ← validateNumField fields "chairman_temperature" (2/5) 0 2
      let wp ← validateStrField fields "web_search_provider" "duckduckgo"
      let wm ← validateIntField fields "web_max_results" 5 1 10
      let wf ← validateIntField fields "web_full_content_results" 0 0 10
      Except.ok
        { stage1_prompt_template := t1
          stage2_prompt_template := t2
          stage3_prompt_template := t3
          council_temperature := ct
          stage2_temperature := s2t
          chairman_temperature := cht
          web_search_provider := wp
          web_max_results := wm
          web_full_content_results := wf }
  | _ => Except.error "argument after ** must be a mapping"

/-- `get_runtime_settings` from `backend/runtime_settings.py`: defaults when
the file is missing/unreadable or the parsed value is falsy; defaults again
when pydantic validation raises; otherwise the validated settings. -/
def get_runtime_settings (fs : SettingsFileState) : RuntimeSettings :=
  match _read_json_file fs with
  | none => default_runtime_settings
  | some raw =>
      if pyTruthy raw then
        match validateRuntimeSettings raw with
        | Except.ok s => s
        | Except.error _ => default_runtime_settings
      else
        default_runtime_settings

/-! ## backend/tools.py : the safe AST calculator

Embedding of `_safe_eval_node` / `safe_calculate`. Python AST nodes are the
`PyExpr` constructors; node kinds outside the handled set are collapsed into
`unsupported`/`constOther`/`otherB`/`otherU` carrying the kind name, exactly
as the source only ever inspects their type to reject them. Python exceptions
become `PyErr`; `safe_calculate` catches all of them. Transcendental function
values (`sin`, `exp`, fractional powers, ...) are irrational in general and
are abstracted to fixed rationals: the verified properties (totality and
confinement) never depend on the numeric value of a successful evaluation. -/

/-- The binary operator kinds: the seven in `_OPERATORS` plus `otherB` for
any other `ast` operator type (`BitAnd`, `LShift`, `MatMult`, ...). -/
inductive BinOpK where
  | addB | subB | multB | divB | floordivB | modB | powB
  | otherB (nm : String)
  deriving DecidableEq, Repr

/-- Unary operator kinds: `USub`/`UAdd` from `_OPERATORS` plus `otherU`
for any other (`Not`, `Invert`). -/
inductive UnOpK where
  | usubU | uaddU
  | otherU (nm : String)
  deriving DecidableEq, Repr

/-- Python expression AST as traversed by `_safe_eval_node`. `constBool`
is a separate constructor because Python `bool` is an `int` instance and
therefore accepted by the `isinstance` check; `constOther` covers constants
of any other type (`str`, `bytes`, `None`, ...); `unsupported` covers every
AST node kind without a branch in the source (`Compare`, `BoolOp`,
`Lambda`, `Attribute`, `Subscript`, `Dict`, ...). -/
inductive PyExpr where
  | constInt (n : ℤ)
  | constBool (b : Bool)
  | constFloat (q : ℚ)
  | constComplex (re im : ℚ)
  | constOther (kind : String)
  | num (n : ℤ)
  | binop (op : BinOpK) (l r : PyExpr)
  | unaryop (op : UnOpK) (e : PyExpr)
  | call (fn : PyExpr) (args : List PyExpr)
  | name (id : String)
  | listE (elts : List PyExpr)
  | tupleE (elts : List PyExpr)
  | expression (body : PyExpr)
  | unsupported (kind : String)

/-- Python runtime values producible by the safe evaluator. -/
inductive PyVal where
  | vbool (b : Bool)
  | vint (n : ℤ)
  | vfloat (q : ℚ)
  | vcomplex (re im : ℚ)
  | vlist (xs : List PyVal)
  | vtuple (xs : List PyVal)

/-- Python exceptions that `_safe_eval_node` and the arithmetic can raise;
all of them are caught by `safe_calculate`. -/
inductive PyErr where
  | valueError (msg : String)
  | zeroDivision
  | typeError (msg : String)
  deriving DecidableEq, Repr

/-- Numeric tower: `bool` coerces to `int`; `int < float < complex`. -/
inductive NumV where
  | nint (n : ℤ)
  | nfloat (q : ℚ)
  | ncomplex (re im : ℚ)
  deriving DecidableEq, Repr

def asNum : PyVal → Option NumV
  | PyVal.vbool b => some (NumV.nint (if b then 1 else 0))
  | PyVal.vint n => some (NumV.nint n)
  | PyVal.vfloat q => some (NumV.nfloat q)
  | PyVal.vcomplex re im => some (NumV.ncomplex re im)
  | _ => none

def NumV.toC : NumV → ℚ × ℚ
  | NumV.nint n => ((n : ℚ), 0)
  | NumV.nfloat q => (q, 0)
  | NumV.ncomplex re im => (re, im)

def NumV.toQ : NumV → ℚ
  | NumV.nint n => (n : ℚ)
  | NumV.nfloat q => q
  | NumV.ncomplex re _ => re

def NumV.isComplex : NumV → Bool
  | NumV.ncomplex _ _ => true
  | _ => false

def NumV.isZero : NumV → Bool
  | NumV.nint n => n == 0
  | NumV.nfloat q => q == 0
  | NumV.ncomplex re im => re == 0 && im == 0

def NumV.toVal : NumV → PyVal
  | NumV.nint n => PyVal.vint n
  | NumV.nfloat q => PyVal.vfloat q
  | NumV.ncomplex re im => PyVal.vcomplex re im

/-- Numeric promotion for `+`, `-`, `*`. -/
def numPromote (g : ℤ → ℤ → ℤ) (f : ℚ → ℚ → ℚ)
    (fc : ℚ × ℚ → ℚ × ℚ → ℚ × ℚ) (a b : NumV) : NumV :=
  match a, b with
  | NumV.nint m, NumV.nint n => NumV.nint (g m n)
  | NumV.ncomplex _ _, _ =>
      let p := fc a.toC b.toC
      NumV.ncomplex p.1 p.2
  | _, NumV.ncomplex _ _ =>
      let p := fc a.toC b.toC
      NumV.ncomplex p.1 p.2
  | _, _ => NumV.nfloat (f a.toQ b.toQ)

def numAdd (a b : NumV) : NumV :=
  numPromote (· + ·) (· + ·) (fun x y => (x.1 + y.1, x.2 + y.2)) a b

def numSub (a b : NumV) : NumV :=
  numPromote (· - ·) (· - ·) (fun x y => (x.1 - y.1, x.2 - y.2)) a b

def numMul (a b : NumV) : NumV :=
  numPromote (· * ·) (· * ·)
    (fun x y => (x.1 * y.1 - x.2 * y.2, x.1 * y.2 + x.2 * y.1)) a b

/-- Python complex division. -/
def cDiv (x y : ℚ × ℚ) : ℚ × ℚ :=
  let d := y.1 * y.1 + y.2 * y.2
  ((x.1 * y.1 + x.2 * y.2) / d, (x.2 * y.1 - x.1 * y.2) / d)

/-- `operator.truediv`: `int / int` is a float; division by zero raises. -/
def numDiv (a b : NumV) : Except PyErr NumV :=
  if b.isZero then Except.error PyErr.zeroDivision
  else
    match a, b with
    | NumV.ncomplex _ _, _ =>
        let p := cDiv a.toC b.toC
        Except.ok (NumV.ncomplex p.1 p.2)
    | _, NumV.ncomplex _ _ =>
        let p := cDiv a.toC b.toC
        Except.ok (NumV.ncomplex p.1 p.2)
    | _, _ => Except.ok (NumV.nfloat (a.toQ / b.toQ))

/-- `operator.floordiv`: floor division; rejected on complex. -/
def numFloorDiv (a b : NumV) : Except PyErr NumV :=
  if a.isComplex ∨ b.isComplex then
    Except.error (PyErr.typeError "unsupported operand type for //: complex")
  else if b.isZero then Except.error PyErr.zeroDivision
  else
    match a, b with
    | NumV.nint m, NumV.nint n => Except.ok (NumV.nint (Int.fdiv m n))
    | _, _ => Except.ok (NumV.nfloat (⌊a.toQ / b.toQ⌋ : ℤ))

/-- `operator.mod`: Python remainder (sign follows the divisor); rejected
on complex. -/
def numMod (a b : NumV) : Except PyErr NumV :=
  if a.isComplex ∨ b.isComplex then
    Except.error (PyErr.typeError "unsupported operand type for %: complex")
  else if b.isZero then Except.error PyErr.zeroDivision
  else
    match a, b with
    | NumV.nint m, NumV.nint n => Except.ok (NumV.nint (Int.fmod m n))
    | _, _ => Except.ok (NumV.nfloat (a.toQ - b.toQ * (⌊a.toQ / b.toQ⌋ : ℤ)))

/-- Exact complex integer power (used for `complex ** int`). -/
def cPowNat (z : ℚ × ℚ) : ℕ → ℚ × ℚ
  | 0 => (1, 0)
  | Nat.succ k =>
      let p := cPowNat z k
      (z.1 * p.1 - z.2 * p.2, z.1 * p.2 + z.2 * p.1)

/-- Integer-exponent power (shared by `a ** int` and `a ** float` when the
exponent has an integral value). -/
def numPowInt (a : NumV) (k : ℤ) : Except PyErr NumV :=
  if a.isComplex then
    if a.isZero ∧ k < 0 then Except.error PyErr.zeroDivision
    else if 0 ≤ k then
      let p := cPowNat a.toC k.toNat
      Except.ok (NumV.ncomplex p.1 p.2)
    else
      let p := cDiv (1, 0) (cPowNat a.toC (-k).toNat)
      Except.ok (NumV.ncomplex p.1 p.2)
  else
    match a with
    | NumV.nint m =>
        if 0 ≤ k then Except.ok (NumV.nint (m ^ k.toNat))
        else if m = 0 then Except.error PyErr.zeroDivision
        else Except.ok (NumV.nfloat ((m : ℚ) ^ k))
    | _ =>
        if a.isZero ∧ k < 0 then Except.error PyErr.zeroDivision
        else Except.ok (NumV.nfloat (a.toQ ^ k))

/-- `operator.pow`. Integer exponents are computed exactly; fractional and
complex exponents yield irrational/transcendental values and are abstracted
(the success/failure split is faithful: `0` to a negative or complex power
raises `ZeroDivisionError`). -/
def numPow (a b : NumV) : Except PyErr NumV :=
  match b with
  | NumV.nint k => numPowInt a k
  | NumV.nfloat q =>
      if q.den = 1 then numPowInt a q.num
      else if a.isZero then
        if q.num < 0 then Except.error PyErr.zeroDivision
        else Except.ok (NumV.nfloat 0)
      else if a.isComplex then Except.ok (NumV.ncomplex 0 0)
      else if a.toQ < 0 then Except.ok (NumV.ncomplex 0 0)
      else Except.ok (NumV.nfloat 0)
  | NumV.ncomplex _ _ =>
      if a.isZero then Except.error PyErr.zeroDivision
      else Except.ok (NumV.ncomplex 0 0)

/-- Dispatch for the seven whitelisted binary operators. `list`/`tuple`
concatenation and repetition mirror Python sequence semantics; every other
non-numeric combination raises `TypeError`. -/
def applyBin (op : BinOpK) (a b : PyVal) : Except PyErr PyVal :=
  match op, a, b with
  | BinOpK.addB, PyVal.vlist xs, PyVal.vlist ys => Except.ok (PyVal.vlist (xs ++ ys))
  | BinOpK.addB, PyVal.vtuple xs, PyVal.vtuple ys => Except.ok (PyVal.vtuple (xs ++ ys))
  | BinOpK.multB, PyVal.vlist xs, PyVal.vint n =>
      Except.ok (PyVal.vlist (List.flatten (List.replicate n.toNat xs)))
  | BinOpK.multB, PyVal.vint n, PyVal.vlist xs =>
      Except.ok (PyVal.vlist (List.flatten (List.replicate n.toNat xs)))
  | BinOpK.multB, PyVal.vtuple xs, PyVal.vint n =>
      Except.ok (PyVal.vtuple (List.flatten (List.replicate n.toNat xs)))
  | BinOpK.multB, PyVal.vint n, PyVal.vtuple xs =>
      Except.ok (PyVal.vtuple (List.flatten (List.replicate n.toNat xs)))
  | _, _, _ =>
      match asNum a, asNum b with
      | some x, some y =>
          match op with
          | BinOpK.addB => Except.ok (numAdd x y).toVal
          | BinOpK.subB => Except.ok (numSub x y).toVal
          | BinOpK.multB => Except.ok (numMul x y).toVal
          | BinOpK.divB => (numDiv x y).map NumV.toVal
          | BinOpK.floordivB => (numFloorDiv x y).map NumV.toVal
          | BinOpK.modB => (numMod x y).map NumV.toVal
          | BinOpK.powB => (numPow x y).map NumV.toVal
          | BinOpK.otherB nm =>
              Except.error (PyErr.valueError ("Unsupported operator: " ++ nm))
      | _, _ =>
          Except.error (PyErr.typeError "unsupported operand type(s)")

/-- `operator.neg` / `operator.pos`: numeric only (`+bool`/`-bool` become
`int`, as in Python). -/
def applyUn (op : UnOpK) (a : PyVal) : Except PyErr PyVal :=
  match asNum a with
  | some x =>
      match op with
      | UnOpK.usubU => Except.ok (numSub (NumV.nint 0) x).toVal
      | UnOpK.uaddU => Except.ok (numAdd (NumV.nint 0) x).toVal
      | UnOpK.otherU nm =>
          Except.error (PyErr.valueError ("Unsupported unary operator: " ++ nm))
  | none => Except.error (PyErr.typeError "bad operand type for unary operator")

/-- The keys of `_MATH_FUNCS`. -/
def mathFuncNames : List String :=
  ["abs", "round", "min", "max", "sum", "len", "sqrt", "sin", "cos", "tan",
   "log", "log10", "exp", "floor", "ceil", "pi", "e"]

/-- `math.pi` as a rational (decimal expansion of the IEEE double). -/
def piApprox : ℚ := 3141592653589793 / 1000000000000000

/-- `math.e` as a rational (decimal expansion of the IEEE double). -/
def eApprox : ℚ := 2718281828459045 / 1000000000000000

def mathConst : String → ℚ
  | "pi" => piApprox
  | _ => eApprox

/-- A real (non-complex) number, with `bool` coerced to `int`. -/
def asReal (v : PyVal) : Option ℚ :=
  match asNum v with
  | some (NumV.nint n) => some (n : ℚ)
  | some (NumV.nfloat q) => some q
  | _ => none

/-- Elements of a Python iterable (`list`/`tuple`). -/
def asSeq : PyVal → Option (List PyVal)
  | PyVal.vlist xs => some xs
  | PyVal.vtuple xs => some xs
  | _ => none

/-- Comparison fold for `min`/`max` (real operands only, as comparing
`complex` raises `TypeError`). -/
def pickExtremeGo (isMin : Bool) : List PyVal → PyVal → ℚ → Except PyErr PyVal
  | [], best, _ => Except.ok best
  | v :: rest, best, bq =>
      match asReal v with
      | none => Except.error (PyErr.typeError "comparison not supported between instances")
      | some q =>
          if (if isMin then q < bq else bq < q) then pickExtremeGo isMin rest v q
          else pickExtremeGo isMin rest best bq

def pickExtreme (isMin : Bool) (emptyMsg : String) (vs : List PyVal) :
    Except PyErr PyVal :=
  match vs with
  | [] => Except.error (PyErr.valueError emptyMsg)
  | v :: rest =>
      match asReal v with
      | none => Except.error (PyErr.typeError "comparison not supported between instances")
      | some q => pickExtremeGo isMin rest v q

/-- `sum`: fold `operator.add` over numeric elements. -/
def sumFold : List PyVal → NumV → Except PyErr NumV
  | [], acc => Except.ok acc
  | v :: rest, acc =>
      match asNum v with
      | some x => sumFold rest (numAdd acc x)
      | none => Except.error (PyErr.typeError "unsupported operand type(s) for +")

/-- `round(q)` (half-to-even tie-breaking of Python is abstracted to
half-up) and `round(q, d)`. -/
def pyRound (q : ℚ) : ℤ := ⌊q + 1 / 2⌋

/-- Application of a whitelisted `_MATH_FUNCS` entry to evaluated argument
values: `func(*args)`. Arity or operand-type violations raise `TypeError`,
domain violations raise `ValueError` — all caught by `safe_calculate`.
`pi`/`e` are floats, so calling them raises `TypeError`. -/
def applyFunc : String → List PyVal → Except PyErr PyVal
  | "abs", [v] =>
      (match asNum v with
       | some (NumV.nint n) => Except.ok (PyVal.vint |n|)
       | some (NumV.nfloat q) => Except.ok (PyVal.vfloat |q|)
       | some (NumV.ncomplex re im) =>
           Except.ok (PyVal.vfloat (Rat.sqrt (re * re + im * im)))
       | none => Except.error (PyErr.typeError "bad operand type for abs()"))
  | "abs", _ => Except.error (PyErr.typeError "abs() takes exactly one argument")
  | "round", [v] =>
      (match asNum v with
       | some (NumV.nint n) => Except.ok (PyVal.vint n)
       | some (NumV.nfloat q) => Except.ok (PyVal.vint (pyRound q))
       | _ => Except.error (PyErr.typeError "type complex doesn\x27t define __round__ method"))
  | "round", [v, d] =>
      (match asNum v, asNum d with
       | some (NumV.nint n), some (NumV.nint _) => Except.ok (PyVal.vint n)
       | some (NumV.nfloat q), some (NumV.nint k) =>
           Except.ok (PyVal.vfloat ((pyRound (q * (10 : ℚ) ^ k) : ℚ) / (10 : ℚ) ^ k))
       | _, _ => Except.error (PyErr.typeError "bad operand type for round()"))
  | "round", _ => Except.error (PyErr.typeError "round() takes at most 2 arguments")
  | "min", [] => Except.error (PyErr.typeError "min expected at least 1 argument, got 0")
  | "min", [v] =>
      (match asSeq v with
       | some xs => pickExtreme true "min() arg is an empty sequence" xs
       | none => Except.error (PyErr.typeError "object is not iterable"))
  | "min", vs => pickExtreme true "min() arg is an empty sequence" vs
  | "max", [] => Except.error (PyErr.typeError "max expected at least 1 argument, got 0")
  | "max", [v] =>
      (match asSeq v with
       | some xs => pickExtreme false "max() arg is an empty sequence" xs
       | none => Except.error (PyErr.typeError "object is not iterable"))
  | "max", vs => pickExtreme false "max() arg is an empty sequence" vs
  | "sum", [v] =>
      (match asSeq v with
       | some xs => (sumFold xs (NumV.nint 0)).map NumV.toVal
       | none => Except.error (PyErr.typeError "object is not iterable"))
  | "sum", [v, start] =>
      (match asSeq v, asNum start with
       | some xs, some s => (sumFold xs s).map NumV.toVal
       | _, _ => Except.error (PyErr.typeError "object is not iterable"))
  | "sum", _ => Except.error (PyErr.typeError "sum() takes at most 2 arguments")
  | "len", [v] =>
      (match asSeq v with
       | some xs => Except.ok (PyVal.vint xs.length)
       | none => Except.error (PyErr.typeError "object has no len()"))
  | "len", _ => Except.error (PyErr.typeError "len() takes exactly one argument")
  | "sqrt", [v] =>
      (match asReal v with
       | some q =>
           if q < 0 then Except.error (PyErr.valueError "math domain error")
           else Except.ok (PyVal.vfloat (Rat.sqrt q))
       | none => Except.error (PyErr.typeError "must be real number"))
  | "sqrt", _ => Except.error (PyErr.typeError "sqrt() takes exactly one argument")
  | "sin", [v] =>
      (match asReal v with
       | some _ => Except.ok (PyVal.vfloat 0)
       | none => Except.error (PyErr.typeError "must be real number"))
  | "sin", _ => Except.error (PyErr.typeError "sin() takes exactly one argument")
  | "cos", [v] =>
      (match asReal v with
       | some _ => Except.ok (PyVal.vfloat 0)
       | none => Except.error (PyErr.typeError "must be real number"))
  | "cos", _ => Except.error (PyErr.typeError "cos() takes exactly one argument")
  | "tan", [v] =>
      (match asReal v with
       | some _ => Except.ok (PyVal.vfloat 0)
       | none => Except.error (PyErr.typeError "must be real number"))
  | "tan", _ => Except.error (PyErr.typeError "tan() takes exactly one argument")
  | "log", [v] =>
      (match asReal v with
       | some q =>
           if q ≤ 0 then Except.error (PyErr.valueError "math domain error")
           else Except.ok (PyVal.vfloat 0)
       | none => Except.error (PyErr.typeError "must be real number"))
  | "log", [v, b] =>
      (match asReal v, asReal b with
       | some q, some base =>
           if q ≤ 0 ∨ base ≤ 0 then Except.error (PyErr.valueError "math domain error")
           else if base = 1 then Except.error PyErr.zeroDivision
           else Except.ok (PyVal.vfloat 0)
       | _, _ => Except.error (PyErr.typeError "must be real number"))
  | "log", _ => Except.error (PyErr.typeError "log() takes at most 2 arguments")
  | "log10", [v] =>
      (match asReal v with
       | some q =>
           if q ≤ 0 then Except.error (PyErr.valueError "math domain error")
           else Except.ok (PyVal.vfloat 0)
       | none => Except.error (PyErr.typeError "must be real number"))
  | "log10", _ => Except.error (PyErr.typeError "log10() takes exactly one argument")
  | "exp", [v] =>
      (match asReal v with
       | some _ => Except.ok (PyVal.vfloat 0)
       | none => Except.error (PyErr.typeError "must be real number"))
  | "exp", _ => Except.error (PyErr.typeError "exp() takes exactly one argument")
  | "floor", [v] =>
      (match asReal v with
       | some q => Except.ok (PyVal.vint ⌊q⌋)
       | none => Except.error (PyErr.typeError "must be real number"))
  | "floor", _ => Except.error (PyErr.typeError "floor() takes exactly one argument")
  | "ceil", [v] =>
      (match asReal v with
       | some q => Except.ok (PyVal.vint ⌈q⌉)
       | none => Except.error (PyErr.typeError "must be real number"))
  | "ceil", _ => Except.error (PyErr.typeError "ceil() takes exactly one argument")
  | "pi", _ => Except.error (PyErr.typeError "\x27float\x27 object is not callable")
  | "e", _ => Except.error (PyErr.typeError "\x27float\x27 object is not callable")
  | f, _ => Except.error (PyErr.valueError ("Unsupported function: " ++ f))

mutual

/-- `_safe_eval_node` from `backend/tools.py`: recursive safe evaluation of
one AST node, branch for branch. -/
def evalNode : PyExpr → Except PyErr PyVal
  | PyExpr.constInt n => Except.ok (PyVal.vint n)
  | PyExpr.constBool b => Except.ok (PyVal.vbool b)
  | PyExpr.constFloat q => Except.ok (PyVal.vfloat q)
  | PyExpr.constComplex re im => Except.ok (PyVal.vcomplex re im)
  | PyExpr.constOther kind =>
      Except.error (PyErr.valueError ("Unsupported constant type: " ++ kind))
  | PyExpr.num n => Except.ok (PyVal.vint n)
  | PyExpr.binop op l r =>
      match op with
      | BinOpK.otherB nm =>
          Except.error (PyErr.valueError ("Unsupported operator: " ++ nm))
      | _ => do
          let lv ← evalNode l
          let rv ← evalNode r
          applyBin op lv rv
  | PyExpr.unaryop op e =>
      match op with
      | UnOpK.otherU nm =>
          Except.error (PyErr.valueError ("Unsupported unary operator: " ++ nm))
      | _ => do
          let v ← evalNode e
          applyUn op v
  | PyExpr.call fn args =>
      match fn with
      | PyExpr.name id =>
          if id ∈ mathFuncNames then do
            let vs ← evalArgs args
            applyFunc id vs
          else Except.error (PyErr.valueError ("Unsupported function: " ++ id))
      | _ => Except.error (PyErr.valueError "Only direct function calls are supported")
  | PyExpr.name id =>
      if id = "pi" ∨ id = "e" then Except.ok (PyVal.vfloat (mathConst id))
      else Except.error (PyErr.valueError ("Unsupported variable: " ++ id))
  | PyExpr.listE elts => do
      let vs ← evalArgs elts
      Except.ok (PyVal.vlist vs)
  | PyExpr.tupleE elts => do
      let vs ← evalArgs elts
      Except.ok (PyVal.vtuple vs)
  | PyExpr.expression body => evalNode body
  | PyExpr.unsupported kind =>
      Except.error (PyErr.valueError ("Unsupported expression type: " ++ kind))

/-- Left-to-right evaluation of argument/element lists
(`[_safe_eval_node(arg) for arg in node.args]`). -/
def evalArgs : List PyExpr → Except PyErr (List PyVal)
  | [] => Except.ok []
  | e :: es => do
      let v ← evalNode e
      let vs ← evalArgs es
      Except.ok (v :: vs)

end

mutual

/-- The arithmetic whitelist as a predicate on ASTs: every node of the
expression is one the source's evaluator handles without raising
(numeric constants, whitelisted operators, direct calls to `_MATH_FUNCS`
names, the `pi`/`e` constants, lists/tuples). -/
def confinedB : PyExpr → Bool
  | PyExpr.constInt _ => true
  | PyExpr.constBool _ => true
  | PyExpr.constFloat _ => true
  | PyExpr.constComplex _ _ => true
  | PyExpr.constOther _ => false
  | PyExpr.num _ => true
  | PyExpr.binop op l r =>
      (match op with | BinOpK.otherB _ => false | _ => true)
        && confinedB l && confinedB r
  | PyExpr.unaryop op e =>
      (match op with | UnOpK.otherU _ => false | _ => true) && confinedB e
  | PyExpr.call fn args =>
      (match fn with
       | PyExpr.name id => decide (id ∈ mathFuncNames)
       | _ => false) && confinedList args
  | PyExpr.name id => decide (id = "pi" ∨ id = "e")
  | PyExpr.listE elts => confinedList elts
  | PyExpr.tupleE elts => confinedList elts
  | PyExpr.expression body => confinedB body
  | PyExpr.unsupported _ => false

def confinedList : List PyExpr → Bool
  | [] => true
  | e :: es => confinedB e && confinedList es

end

mutual

/-- `str(result)`: Python textual rendering (decimal float formatting is
abstracted by the rational representation). -/
def pyStr : PyVal → String
  | PyVal.vbool b => if b then "True" else "False"
  | PyVal.vint n => toString n
  | PyVal.vfloat q => toString q
  | PyVal.vcomplex re im => "(" ++ toString re ++ "+" ++ toString im ++ "j)"
  | PyVal.vlist xs => "[" ++ pyStrList xs ++ "]"
  | PyVal.vtuple xs => "(" ++ pyStrList xs ++ ")"

def pyStrList : List PyVal → String
  | [] => ""
  | [x] => pyStr x
  | x :: xs => pyStr x ++ ", " ++ pyStrList xs

end

/-- `safe_calculate` from `backend/tools.py`. The input is the outcome of
`ast.parse(expr.strip(), mode="eval")` (CPython's parser itself is outside
the embedding): `Except.error` is a `SyntaxError` carrying its message,
`Except.ok` the parse tree. Every exception of the evaluator is caught and
rendered, exactly as the four `except` clauses of the source do. -/
def safe_calculate (parseResult : Except String PyExpr) : String :=
  match parseResult with
  | Except.error msg => "Syntax error: " ++ msg
  | Except.ok tree =>
      match evalNode tree with
      | Except.ok v => pyStr v
      | Except.error (PyErr.valueError m) => "Error: " ++ m
      | Except.error PyErr.zeroDivision => "Error: Division by zero"
      | Except.error (PyErr.typeError m) => "Error: " ++ m

/-! ## Shared data model of the pipeline -/

/-- `ModelResult` (spec §3): the outcome of one model query. Provider
failures are represented, never raised (`ok = false` with an error). -/
structure ModelResult where
  model : String
  content : String
  ok : Bool
  error : Option String
  deriving DecidableEq, Repr

/-! ## Conversation Store concurrency

`backend/storage.py` is not under `src/`; only its concurrency regression
tests are. The store is therefore modelled from spec §4.5: each `append`
(`add_user_message` / `add_assistant_message`) is a read-modify-write cycle
— read the conversation, compute the appended value, write it back — that
must run inside a per-conversation-id exclusive critical section acquired
before the read. The model is a small-step system for two concurrent
writers on one conversation id: each writer acquires the lock and takes its
read snapshot in one step, then writes `snapshot ++ [message]` and releases
in a second step; a scheduler chooses the interleaving. -/

/-- Phase of one writer: not yet in the critical section, holding the lock
with its read snapshot, or finished. -/
inductive WPhase where
  | idle
  | holding (snapshot : List String)
  | done
  deriving DecidableEq, Repr

/-- The store plus both writers: the per-conversation-id lock (`false` =
writer A, `true` = writer B), each writer's phase, and the stored message
sequence of the conversation. -/
structure StoreState where
  lock : Option Bool
  pcA : WPhase
  pcB : WPhase
  store : List String
  deriving DecidableEq, Repr

def initStore (c : List String) : StoreState :=
  { lock := none, pcA := WPhase.idle, pcB := WPhase.idle, store := c }

/-- Modelled from the spec: one scheduler-chosen step of writer `w`
appending its message (`mA`/`mB`), per §4.5 of the spec — the lock is
acquired before the read and held across the full read-modify-write cycle
(`backend/storage.py` is missing from `src/`). An idle writer blocks (no-op)
while the lock is taken. -/
def writerStep (mA mB : String) (w : Bool) (s : StoreState) : StoreState :=
  match (if w then s.pcB else s.pcA) with
  | WPhase.idle =>
      match s.lock with
      | none =>
          if w then { s with lock := some true, pcB := WPhase.holding s.store }
          else { s with lock := some false, pcA := WPhase.holding s.store }
      | some _ => s
  | WPhase.holding snap =>
      if w then
        { lock := none, pcA := s.pcA, pcB := WPhase.done, store := snap ++ [mB] }
      else
        { lock := none, pcA := WPhase.done, pcB := s.pcB, store := snap ++ [mA] }
  | WPhase.done => s

/-- Run a schedule (arbitrary interleaving of the two writers). -/
def runSched (mA mB : String) (sched : List Bool) (s : StoreState) : StoreState :=
  match sched with
  | [] => s
  | w :: ws => runSched mA mB ws (writerStep mA mB w s)

/-- Inductive invariant of the locked store: done writers' messages are
stored, a holding writer owns the lock and its snapshot is current, and
the store grew by exactly the done writers' messages. -/
def StoreInv (mA mB : String) (init : List String) (s : StoreState) : Prop :=
  (s.pcA = WPhase.done → mA ∈ s.store) ∧
  (s.pcB = WPhase.done → mB ∈ s.store) ∧
  (∀ snap, s.pcA = WPhase.holding snap → s.lock = some false ∧ snap = s.store) ∧
  (∀ snap, s.pcB = WPhase.holding snap → s.lock = some true ∧ snap = s.store) ∧
  s.store.length = init.length + (if s.pcA = WPhase.done then 1 else 0)
    + (if s.pcB = WPhase.done then 1 else 0)

/-! ## Stage Runner

`backend/openrouter.py` / `backend/ollama.py` are not under `src/`; only
their timeout-cancellation regression tests are. The Stage Runner is
modelled from spec §4.2: launch one task per model, wait with a
`stage_timeout` ceiling, convert per-task failures to `ok=false` results,
and on deadline expiry cancel every pending task and await each cancelled
task before returning. A task is summarised by the time at which its model
call would complete and whether it would succeed. -/

/-- One launched per-model task. -/
structure TaskSpec where
  model : String
  finishTime : ℕ
  succeeds : Bool
  content : String
  deriving DecidableEq, Repr

/-- Observable status of a launched task. -/
inductive TaskStatus where
  | running
  | completed (r : ModelResult)
  | cancelRequested
  | cancelAcked
  deriving DecidableEq, Repr

/-- Spec §4.2 step 5: per-task exceptions are converted to `ok=false`
results, never propagated to siblings. -/
def taskResult (t : TaskSpec) : ModelResult :=
  if t.succeeds then { model := t.model, content := t.content, ok := true, error := none }
  else { model := t.model, content := "", ok := false, error := some "provider error" }

/-- Waiting phase: a task completes within the stage deadline or is still
running when the deadline fires. -/
def settleByDeadline (stage_timeout : ℕ) (t : TaskSpec) : TaskStatus :=
  if t.finishTime ≤ stage_timeout then TaskStatus.completed (taskResult t)
  else TaskStatus.running

/-- Deadline path, first half: mark every pending task for cancellation. -/
def cancelPendingTask : TaskStatus → TaskStatus
  | TaskStatus.running => TaskStatus.cancelRequested
  | s => s

/-- Deadline path, second half: await each cancelled task (its result is
discarded, but its termination is observed). -/
def awaitTask : TaskStatus → TaskStatus
  | TaskStatus.cancelRequested => TaskStatus.cancelAcked
  | s => s

/-- `StageOutcome` (spec §3): collected results plus the count of tasks
still pending when the deadline fired. -/
structure StageOutcome where
  results : List ModelResult
  timedOut : ℕ
  deriving DecidableEq, Repr

/-- Modelled from the spec: `query_models_with_stage_timeout` of
`backend/openrouter.py` / `backend/ollama.py` (missing from `src/`), per
spec §4.2: wait for all tasks up to `stage_timeout`, then cancel and await
every still-pending task before returning. Returns the stage outcome (in
stable launch order) and the final status of every launched task at the
moment of return. -/
def query_models_with_stage_timeout (tasks : List TaskSpec) (stage_timeout : ℕ) :
    StageOutcome × List TaskStatus :=
  let waited := tasks.map (settleByDeadline stage_timeout)
  let afterCancel := waited.map cancelPendingTask
  let final := afterCancel.map awaitTask
  let results := final.filterMap (fun st =>
    match st with
    | TaskStatus.completed r => some r
    | _ => none)
  let pending := waited.countP (fun st => decide (st = TaskStatus.running))
  ({ results := results, timedOut := pending }, final)

/-- A task observed to completion: finished (with an ok or error result)
or cancelled-and-awaited. -/
def taskDone : TaskStatus → Bool
  | TaskStatus.completed _ => true
  | TaskStatus.cancelAcked => true
  | _ => false

/-! ## Stream Session / Pipeline Orchestrator

`backend/main.py` (`send_message_stream` and its event generator) is not
under `src/`; only its disconnect/execution-mode tests are. The generator
is modelled from spec §4.3/§4.4 as a function from the stage results, the
conversation's execution mode, and the cancellation point to the trace of
observable actions: events emitted to the client, assistant-message appends
issued to the Conversation Store, and the re-raise of a cancellation. -/

/-- Conversation-level execution mode (spec §3). -/
inductive ExecutionMode where
  | full
  | chat_ranking
  | chat_only
  deriving DecidableEq, Repr

/-- The assistant message appended by `storage.add_assistant_message`:
`stage2`/`stage3` are optional — `none` when the stage did not run. -/
structure AssistantMsg where
  stage1 : List ModelResult
  stage2 : Option (List ModelResult)
  stage3 : Option ModelResult
  deriving DecidableEq, Repr

/-- Typed progress events of the stream (spec §6). -/
inductive Event where
  | stage1_start
  | stage1_result (r : ModelResult)
  | stage1_complete
  | stage2_start
  | stage2_complete
  | stage3_start
  | stage3_complete
  | completeEv
  deriving DecidableEq, Repr

/-- One observable action of the stream session. -/
inductive Action where
  | emit (e : Event)
  | persist (m : AssistantMsg)
  | reraiseCancellation
  deriving DecidableEq, Repr

/-- Where (if anywhere) the client disconnect / generator teardown cancels
the request: during Stage 1 with `k` results already streamed, immediately
after `stage1_complete` (a later stage in flight), or after Stage 2
completed. -/
inductive CancelPoint where
  | noCancel
  | duringStage1 (k : ℕ)
  | afterStage1
  | afterStage2
  deriving DecidableEq, Repr

/-- Stage 1 is streaming (spec §4.3): start event, one `stage1_result` per
model as it finishes, then `stage1_complete`. -/
def stage1Actions (s1 : List ModelResult) : List Action :=
  Action.emit Event.stage1_start ::
    (s1.map (fun r => Action.emit (Event.stage1_result r))
      ++ [Action.emit Event.stage1_complete])

/-- The guaranteed cleanup (`finally`) of the generator, spec §4.4: persist
the accumulated stages exactly once — and only if Stage 1 produced output. -/
def cleanupActions (acc1 : List ModelResult) (acc2 : Option (List ModelResult))
    (acc3 : Option ModelResult) : List Action :=
  if acc1.isEmpty then []
  else [Action.persist { stage1 := acc1, stage2 := acc2, stage3 := acc3 }]

/-- Result of one streamed request: the action trace plus whether the
Stage 2 / Stage 3 callables were invoked at all. -/
structure StreamRun where
  actions : List Action
  stage2Invoked : Bool
  stage3Invoked : Bool
  deriving DecidableEq, Repr

/-- Modelled from the spec: the event generator of `send_message_stream` in
`backend/main.py` (missing from `src/`), per spec §4.3–§4.4: stages
selected by the execution mode, Stage 1 streamed; on every exit path the
cleanup persists the accumulated results exactly once, and a cancellation
is re-raised after cleanup; in `chat_only` mode the Stage 2 / Stage 3
callables are never invoked. `s1`/`s2`/`s3` are the results the stages
would produce if run to completion. -/
def send_message_stream (mode : ExecutionMode) (s1 s2 : List ModelResult)
    (s3 : ModelResult) (c : CancelPoint) : StreamRun :=
  match c with
  | CancelPoint.duringStage1 k =>
      { actions := Action.emit Event.stage1_start ::
          ((s1.take k).map (fun r => Action.emit (Event.stage1_result r))
            ++ cleanupActions (s1.take k) none none
            ++ [Action.reraiseCancellation]),
        stage2Invoked := false, stage3Invoked := false }
  | CancelPoint.afterStage1 =>
      match mode with
      | ExecutionMode.chat_only =>
          { actions := stage1Actions s1 ++ cleanupActions s1 none none
              ++ [Action.reraiseCancellation],
            stage2Invoked := false, stage3Invoked := false }
      | _ =>
          { actions := stage1Actions s1 ++ [Action.emit Event.stage2_start]
              ++ cleanupActions s1 none none
              ++ [Action.reraiseCancellation],
            stage2Invoked := true, stage3Invoked := false }
  | CancelPoint.afterStage2 =>
      match mode with
      | ExecutionMode.chat_only =>
          { actions := stage1Actions s1 ++ cleanupActions s1 none none
              ++ [Action.reraiseCancellation],
            stage2Invoked := false, stage3Invoked := false }
      | ExecutionMode.chat_ranking =>
          { actions := stage1Actions s1
              ++ [Action.emit Event.stage2_start, Action.emit Event.stage2_complete]
              ++ cleanupActions s1 (some s2) none
              ++ [Action.reraiseCancellation],
            stage2Invoked := true, stage3Invoked := false }
      | ExecutionMode.full =>
          { actions := stage1Actions s1
              ++ [Action.emit Event.stage2_start, Action.emit Event.stage2_complete,
                  Action.emit Event.stage3_start]
              ++ cleanupActions s1 (some s2) none
              ++ [Action.reraiseCancellation],
            stage2Invoked := true, stage3Invoked := true }
  | CancelPoint.noCancel =>
      match mode with
      | ExecutionMode.chat_only =>
          { actions := stage1Actions s1 ++ [Action.emit Event.completeEv]
              ++ cleanupActions s1 none none,
            stage2Invoked := false, stage3Invoked := false }
      | ExecutionMode.chat_ranking =>
          { actions := stage1Actions s1
              ++ [Action.emit Event.stage2_start, Action.emit Event.stage2_complete,
                  Action.emit Event.completeEv]
              ++ cleanupActions s1 (some s2) none,
            stage2Invoked := true, stage3Invoked := false }
      | ExecutionMode.full =>
          { actions := stage1Actions s1
              ++ [Action.emit Event.stage2_start, Action.emit Event.stage2_complete,
                  Action.emit Event.stage3_start, Action.emit Event.stage3_complete,
                  Action.emit Event.completeEv]
              ++ cleanupActions s1 (some s2) (some s3),
            stage2Invoked := true, stage3Invoked := true }

/-- The assistant-message appends issued during a run. -/
def persistedMsgs (as : List Action) : List AssistantMsg :=
  as.filterMap (fun a =>
    match a with
    | Action.persist m => some m
    | _ => none)

/-- The events emitted to the client during a run. -/
def eventsOf (as : List Action) : List Event :=
  as.filterMap (fun a =>
    match a with
    | Action.emit e => some e
    | _ => none)

/-- Stage 2 / Stage 3 progress events. -/
def isStage23Event : Event → Bool
  | Event.stage2_start => true
  | Event.stage2_complete => true
  | Event.stage3_start => true
  | Event.stage3_complete => true
  | _ => false

/-! ## Stored assistant-message shape -/

/-- A stored field value (opaque payloads). -/
inductive FieldV where
  | str (s : String)
  | resultsV (rs : List ModelResult)
  | resultV (r : ModelResult)
  | metaV (m : List (String × String))
  deriving DecidableEq, Repr

/-- Modelled from the spec: the message mapping built by
`storage.add_assistant_message` (`backend/storage.py` is missing from
`src/`; its shape is pinned by spec §3 and the storage tests): `role` and
`stage1` always present, `stage2`/`stage3` keys present only when the stage
ran (`some`), the field being omitted entirely — not stored as null — when
the execution mode skipped the stage. -/
def add_assistant_message_fields (s1 : List ModelResult)
    (s2 : Option (List ModelResult)) (s3 : Option ModelResult)
    (metadata : List (String × String)) : List (String × FieldV) :=
  [("role", FieldV.str "assistant"), ("stage1", FieldV.resultsV s1)]
  ++ (match s2 with
      | some l => [("stage2", FieldV.resultsV l)]
      | none => [])
  ++ (match s3 with
      | some r => [("stage3", FieldV.resultV r)]
      | none => [])
  ++ [("metadata", FieldV.metaV metadata)]

/-! ## Theorems: configuration validation (C8) -/

theorem pyFalsyOptStr_iff (k : Option String) :
    pyFalsyOptStr k = true ↔ (k = none ∨ k = some "") := by
  cases k with
  | none => simp [pyFalsyOptStr]
  | some s =>
      simp only [pyFalsyOptStr]
      constructor
      · intro h
        exact Or.inr (congrArg some ((String.isEmpty_iff s).mp h))
      · intro h
        rcases h with h | h
        · cases h
        · rw [Option.some.injEq] at h
          subst h
          rfl

/-- C8: `validate_openrouter_config` raises `ValueError` if and only if the
configured router type is `"openrouter"` and no OpenRouter API key is set
(absent or empty); and in that failing configuration the stage setup surfaces
the error before launching any per-model task, producing no `ok=false`
results. -/
theorem validate_openrouter_config_missing_key_iff (c : Config) :
    ((validate_openrouter_config c = Except.error openrouterKeyErrorMsg) ↔
      (c.router_type = "openrouter" ∧
        (c.openrouter_api_key = none ∨ c.openrouter_api_key = some ""))) ∧
    (∀ models : List String,
      c.router_type = "openrouter" →
      (c.openrouter_api_key = none ∨ c.openrouter_api_key = some "") →
      stage_setup c models = Except.error openrouterKeyErrorMsg ∧
      tasksLaunched (stage_setup c models) = []) := by
  have hmain : (validate_openrouter_config c = Except.error openrouterKeyErrorMsg) ↔
      (c.router_type = "openrouter" ∧
        (c.openrouter_api_key = none ∨ c.openrouter_api_key = some "")) := by
    unfold validate_openrouter_config
    by_cases h : c.router_type = "openrouter" ∧ pyFalsyOptStr c.openrouter_api_key
    · rw [if_pos h]
      constructor
      · intro _
        exact ⟨h.1, (pyFalsyOptStr_iff _).mp h.2⟩
      · intro _
        rfl
    · rw [if_neg h]
      constructor
      · intro hcontra; cases hcontra
      · intro ⟨h1, h2⟩
        exact absurd ⟨h1, (pyFalsyOptStr_iff _).mpr h2⟩ h
  refine ⟨hmain, ?_⟩
  intro models h1 h2
  have hval := hmain.mpr ⟨h1, h2⟩
  constructor
  · unfold stage_setup
    rw [hval]
  · unfold stage_setup
    rw [hval]
    rfl

theorem validate_openrouter_config_missing_key_iff_witness :
    (validate_openrouter_config ⟨"openrouter", none⟩ =
      Except.error openrouterKeyErrorMsg) ∧
    tasksLaunched (stage_setup ⟨"openrouter", none⟩ ["m1", "m2"]) = [] :=
  ⟨(validate_openrouter_config_missing_key_iff ⟨"openrouter", none⟩).1.mpr
      ⟨rfl, Or.inl rfl⟩,
   ((validate_openrouter_config_missing_key_iff ⟨"openrouter", none⟩).2
      ["m1", "m2"] rfl (Or.inl rfl)).2⟩

/-! ## Theorems: runtime settings totality (C10) -/

/-- C10: `get_runtime_settings` is total and, for every bad state of the
settings file — absent, unreadable/unparseable JSON, or JSON failing
`RuntimeSettings` validation — returns the default `RuntimeSettings`, whose
temperatures all lie within `[0, 2]`. (Totality itself is by construction:
`get_runtime_settings` is a total Lean function; every Python exception path
of the source is reflected in its branches.) -/
theorem get_runtime_settings_defaults_on_bad_state (fs : SettingsFileState)
    (h : fs = SettingsFileState.absent ∨ fs = SettingsFileState.unreadable ∨
      ∃ j, fs = SettingsFileState.parsed j ∧
        (validateRuntimeSettings j).isOk = false) :
    get_runtime_settings fs = default_runtime_settings ∧
    (0 ≤ (get_runtime_settings fs).council_temperature ∧
      (get_runtime_settings fs).council_temperature ≤ 2) ∧
    (0 ≤ (get_runtime_settings fs).stage2_temperature ∧
      (get_runtime_settings fs).stage2_temperature ≤ 2) ∧
    (0 ≤ (get_runtime_settings fs).chairman_temperature ∧
      (get_runtime_settings fs).chairman_temperature ≤ 2) := by
  have hdef : get_runtime_settings fs = default_runtime_settings := by
    rcases h with h | h | ⟨j, hj, hbad⟩
    · rw [h]; rfl
    · rw [h]; rfl
    · rw [hj]
      have hred : get_runtime_settings (SettingsFileState.parsed j)
          = if pyTruthy j = true then
              (match validateRuntimeSettings j with
               | Except.ok s => s
               | Except.error _ => default_runtime_settings)
            else default_runtime_settings := rfl
      rw [hred]
      cases ht : pyTruthy j with
      | true =>
          rw [if_pos rfl]
          cases hv : validateRuntimeSettings j with
          | ok s => rw [hv] at hbad; simp [Except.isOk, Except.toBool] at hbad
          | error e => rfl
      | false =>
          rw [if_neg Bool.false_ne_true]
  refine ⟨hdef, ?_, ?_, ?_⟩ <;> rw [hdef] <;> constructor <;> norm_num [default_runtime_settings]

/-! ## Theorems: calculator safety (C9) -/

/-- Helper: a successful evaluation visits only whitelisted nodes — proved
jointly for `evalNode` and `evalArgs` by their mutual induction principle. -/
theorem eval_ok_confined_all :
    (∀ e, ∀ v, evalNode e = Except.ok v → confinedB e = true) ∧
    (∀ es, ∀ vs, evalArgs es = Except.ok vs → confinedList es = true) := by
  refine evalNode.mutual_induct
    (fun e => ∀ v, evalNode e = Except.ok v → confinedB e = true)
    (fun es => ∀ vs, evalArgs es = Except.ok vs → confinedList es = true)
    ?_ ?_ ?_ ?_ ?_ ?_ ?_ ?_ ?_ ?_ ?_ ?_ ?_ ?_ ?_ ?_ ?_ ?_ ?_ ?_ ?_
  · intro n v h; rfl
  · intro b v h; rfl
  · intro q v h; rfl
  · intro re im v h; rfl
  · intro kind v h; simp [evalNode] at h
  · intro n v h; rfl
  · intro l r nm v h; simp [evalNode] at h
  · intro op l r hop ihl ihr v h
    cases op <;> try exact (hop _ rfl).elim
    all_goals {
      simp only [evalNode] at h
      cases hl : evalNode l with
      | error e1 => rw [hl] at h; nomatch h
      | ok lv =>
          rw [hl] at h
          cases hr : evalNode r with
          | error e2 => rw [hr] at h; nomatch h
          | ok rv => simp [confinedB, ihl lv hl, ihr rv hr]
    }
  · intro e nm v h; simp [evalNode] at h
  · intro op e hop ihe v h
    cases op <;> try exact (hop _ rfl).elim
    all_goals {
      simp only [evalNode] at h
      cases he : evalNode e with
      | error e1 => rw [he] at h; nomatch h
      | ok ev => simp [confinedB, ihe ev he]
    }
  · intro args id hid ih v h
    simp only [evalNode] at h
    rw [if_pos hid] at h
    cases ha : evalArgs args with
    | error e1 => rw [ha] at h; nomatch h
    | ok vs => simp [confinedB, ih vs ha, decide_eq_true hid]
  · intro args id hid v h
    simp only [evalNode] at h
    rw [if_neg hid] at h
    cases h
  · intro fn args hfn v h
    cases fn <;> first
      | exact (hfn _ rfl).elim
      | simp [evalNode] at h
  · intro id hid v h
    simp only [confinedB]
    exact decide_eq_true hid
  · intro id hid v h
    simp only [evalNode] at h
    rw [if_neg hid] at h
    cases h
  · intro elts ih v h
    simp only [evalNode] at h
    cases ha : evalArgs elts with
    | error e1 => rw [ha] at h; nomatch h
    | ok vs => simp [confinedB, ih vs ha]
  · intro elts ih v h
    simp only [evalNode] at h
    cases ha : evalArgs elts with
    | error e1 => rw [ha] at h; nomatch h
    | ok vs => simp [confinedB, ih vs ha]
  · intro body ih v h
    simp only [evalNode] at h
    simp only [confinedB]
    exact ih v h
  · intro kind v h; simp [evalNode] at h
  · intro vs h; rfl
  · intro e es ihe ihes vs h
    simp only [evalArgs] at h
    cases he : evalNode e with
    | error e1 => rw [he] at h; nomatch h
    | ok v =>
        rw [he] at h
        cases hes : evalArgs es with
        | error e2 => rw [hes] at h; nomatch h
        | ok ws => simp [confinedList, ihe v he, ihes ws hes]

/-- C9: `safe_calculate` is total and confined. For every parse outcome it
returns a string: either the rendering of a successfully evaluated value, or
an error string (`"Error: ..."` for evaluation failures, including division
by zero and every non-whitelisted node; `"Syntax error: ..."` for parse
failures) — never an uncaught exception. Moreover any successful evaluation
visited only whitelisted nodes: no call to a function outside the allowed
math set, no variable reference, and no unsupported node kind is ever
executed. -/
theorem safe_calculate_total_and_confined :
    (∀ p : Except String PyExpr,
      (∃ e v, p = Except.ok e ∧ evalNode e = Except.ok v ∧
        safe_calculate p = pyStr v) ∨
      (∃ m, safe_calculate p = "Error: " ++ m) ∨
      (∃ m, safe_calculate p = "Syntax error: " ++ m)) ∧
    (∀ e v, evalNode e = Except.ok v → confinedB e = true) := by
  constructor
  · intro p
    cases p with
    | error msg => exact Or.inr (Or.inr ⟨msg, rfl⟩)
    | ok tree =>
        cases hv : evalNode tree with
        | ok v =>
            refine Or.inl ⟨tree, v, rfl, hv, ?_⟩
            simp [safe_calculate, hv]
        | error err =>
            cases err with
            | valueError m =>
                refine Or.inr (Or.inl ⟨m, ?_⟩)
                simp [safe_calculate, hv]
            | zeroDivision =>
                refine Or.inr (Or.inl ⟨"Division by zero", ?_⟩)
                simp [safe_calculate, hv]
            | typeError m =>
                refine Or.inr (Or.inl ⟨m, ?_⟩)
                simp [safe_calculate, hv]
  · exact eval_ok_confined_all.1

theorem safe_calculate_total_and_confined_witness :
    ((∃ e v,
        (Except.ok (PyExpr.binop BinOpK.addB (PyExpr.constInt 2) (PyExpr.constInt 2)) :
          Except String PyExpr) = Except.ok e ∧
        evalNode e = Except.ok v ∧
        safe_calculate
          (Except.ok (PyExpr.binop BinOpK.addB (PyExpr.constInt 2) (PyExpr.constInt 2)))
          = pyStr v) ∨
      (∃ m, safe_calculate
          (Except.ok (PyExpr.binop BinOpK.addB (PyExpr.constInt 2) (PyExpr.constInt 2)))
          = "Error: " ++ m) ∨
      (∃ m, safe_calculate
          (Except.ok (PyExpr.binop BinOpK.addB (PyExpr.constInt 2) (PyExpr.constInt 2)))
          = "Syntax error: " ++ m)) ∧
    confinedB (PyExpr.binop BinOpK.addB (PyExpr.constInt 2) (PyExpr.constInt 2)) = true :=
  ⟨safe_calculate_total_and_confined.1
      (Except.ok (PyExpr.binop BinOpK.addB (PyExpr.constInt 2) (PyExpr.constInt 2))),
   safe_calculate_total_and_confined.2
      (PyExpr.binop BinOpK.addB (PyExpr.constInt 2) (PyExpr.constInt 2))
      (PyVal.vint 4) rfl⟩

theorem get_runtime_settings_defaults_on_bad_state_witness :
    get_runtime_settings SettingsFileState.absent = default_runtime_settings ∧
    (0 ≤ (get_runtime_settings SettingsFileState.absent).council_temperature ∧
      (get_runtime_settings SettingsFileState.absent).council_temperature ≤ 2) ∧
    (0 ≤ (get_runtime_settings SettingsFileState.absent).stage2_temperature ∧
      (get_runtime_settings SettingsFileState.absent).stage2_temperature ≤ 2) ∧
    (0 ≤ (get_runtime_settings SettingsFileState.absent).chairman_temperature ∧
      (get_runtime_settings SettingsFileState.absent).chairman_temperature ≤ 2) :=
  get_runtime_settings_defaults_on_bad_state SettingsFileState.absent (Or.inl rfl)

theorem persistedMsgs_append (xs ys : List Action) :
    persistedMsgs (xs ++ ys) = persistedMsgs xs ++ persistedMsgs ys :=
  List.filterMap_append xs ys _

theorem persistedMsgs_stage1_emits (rs : List ModelResult) :
    persistedMsgs (rs.map (fun r => Action.emit (Event.stage1_result r))) = [] := by
  induction rs with
  | nil => rfl
  | cons r rs ih => simp [persistedMsgs, List.filterMap_cons, ih]

theorem persistedMsgs_stage1Actions (rs : List ModelResult) :
    persistedMsgs (stage1Actions rs) = [] := by
  simp [stage1Actions, persistedMsgs, List.filterMap_cons, List.filterMap_append]

theorem persistedMsgs_cleanup (a1 : List ModelResult)
    (a2 : Option (List ModelResult)) (a3 : Option ModelResult) :
    persistedMsgs (cleanupActions a1 a2 a3)
      = if a1.isEmpty then [] else [{ stage1 := a1, stage2 := a2, stage3 := a3 }] := by
  unfold cleanupActions
  split <;> simp_all [persistedMsgs]

theorem eventsOf_append (xs ys : List Action) :
    eventsOf (xs ++ ys) = eventsOf xs ++ eventsOf ys :=
  List.filterMap_append xs ys _

theorem eventsOf_stage1_emits (rs : List ModelResult) :
    eventsOf (rs.map (fun r => Action.emit (Event.stage1_result r)))
      = rs.map Event.stage1_result := by
  induction rs with
  | nil => rfl
  | cons r rs ih =>
      simp only [eventsOf] at ih
      simp only [List.map_cons, eventsOf, List.filterMap_cons]
      exact congrArg _ ih

theorem eventsOf_cleanup (a1 : List ModelResult)
    (a2 : Option (List ModelResult)) (a3 : Option ModelResult) :
    eventsOf (cleanupActions a1 a2 a3) = [] := by
  unfold cleanupActions
  split <;> simp [eventsOf]

theorem completeEv_not_mem_stage1Actions (rs : List ModelResult) :
    Action.emit Event.completeEv ∉ stage1Actions rs := by
  simp [stage1Actions, List.mem_cons, List.mem_append, List.mem_map]

theorem completeEv_not_mem_cleanup (a1 : List ModelResult)
    (a2 : Option (List ModelResult)) (a3 : Option ModelResult) :
    Action.emit Event.completeEv ∉ cleanupActions a1 a2 a3 := by
  unfold cleanupActions
  split <;> simp
theorem storeInv_init (mA mB : String) (c : List String) :
    StoreInv mA mB c (initStore c) := by
  refine ⟨?_, ?_, ?_, ?_, ?_⟩ <;> simp [initStore, StoreInv]

theorem storeInv_step (mA mB : String) (c : List String) (w : Bool)
    (s : StoreState) (h : StoreInv mA mB c s) :
    StoreInv mA mB c (writerStep mA mB w s) := by
  obtain ⟨hA, hB, hHA, hHB, hlen⟩ := h
  cases w with
  | false =>
      cases hpc : s.pcA with
      | idle =>
          cases hlock : s.lock with
          | none =>
              simp only [writerStep, hpc, hlock, Bool.false_eq_true, ite_false]
              refine ⟨?_, ?_, ?_, ?_, ?_⟩
              · intro hcontra; simp at hcontra
              · exact hB
              · intro snap hsnap
                simp at hsnap
                exact ⟨rfl, hsnap.symm ▸ rfl⟩
              · intro snap hsnap
                exact absurd ((hHB snap hsnap).1) (by rw [hlock]; simp)
              · simp only []
                rw [hlen, hpc]
                simp
          | some owner =>
              simp only [writerStep, hpc, hlock, Bool.false_eq_true, ite_false]
              exact ⟨hA, hB, hHA, hHB, hlen⟩
      | holding snap =>
          have hown := hHA snap hpc
          simp only [writerStep, hpc, Bool.false_eq_true, ite_false]
          refine ⟨?_, ?_, ?_, ?_, ?_⟩
          · intro _; simp
          · intro hdone
            have := hB hdone
            rw [hown.2]
            exact List.mem_append_left _ this
          · intro snap2 hsnap2; simp at hsnap2
          · intro snap2 hsnap2
            exact absurd ((hHB snap2 hsnap2).1) (by rw [hown.1]; simp)
          · simp only [List.length_append, List.length_singleton]
            rw [hown.2, hlen, hpc]
            simp only [reduceIte]
            by_cases hbd : s.pcB = WPhase.done <;> simp [hbd]
      | done =>
          simp only [writerStep, hpc, Bool.false_eq_true, ite_false]
          exact ⟨hA, hB, hHA, hHB, hlen⟩
  | true =>
      cases hpc : s.pcB with
      | idle =>
          cases hlock : s.lock with
          | none =>
              simp only [writerStep, hpc, hlock, ite_true]
              refine ⟨?_, ?_, ?_, ?_, ?_⟩
              · exact hA
              · intro hcontra; simp at hcontra
              · intro snap hsnap
                exact absurd ((hHA snap hsnap).1) (by rw [hlock]; simp)
              · intro snap hsnap
                simp at hsnap
                exact ⟨rfl, hsnap.symm ▸ rfl⟩
              · simp only []
                rw [hlen, hpc]
                simp
          | some owner =>
              simp only [writerStep, hpc, hlock, ite_true]
              exact ⟨hA, hB, hHA, hHB, hlen⟩
      | holding snap =>
          have hown := hHB snap hpc
          simp only [writerStep, hpc, ite_true]
          refine ⟨?_, ?_, ?_, ?_, ?_⟩
          · intro hdone
            have := hA hdone
            rw [hown.2]
            exact List.mem_append_left _ this
          · intro _; simp
          · intro snap2 hsnap2
            exact absurd ((hHA snap2 hsnap2).1) (by rw [hown.1]; simp)
          · intro snap2 hsnap2; simp at hsnap2
          · simp only [List.length_append, List.length_singleton]
            rw [hown.2, hlen, hpc]
            simp only [reduceIte]
            by_cases had : s.pcA = WPhase.done <;> simp [had]
      | done =>
          simp only [writerStep, hpc, ite_true]
          exact ⟨hA, hB, hHA, hHB, hlen⟩

theorem storeInv_run (mA mB : String) (c : List String) (sched : List Bool)
    (s : StoreState) (h : StoreInv mA mB c s) :
    StoreInv mA mB c (runSched mA mB sched s) := by
  induction sched generalizing s with
  | nil => exact h
  | cons w ws ih => exact ih _ (storeInv_step mA mB c w s h)

/-- C1: for every pair of concurrent appends to the same conversation under
the per-id exclusive read-modify-write critical section, and every
scheduler interleaving after which both appenders have completed, both
messages are present in the stored message sequence (and the store grew by
exactly the two appended messages — no lost update). -/
theorem concurrent_appends_no_lost_update
    (c : List String) (mA mB : String) (sched : List Bool)
    (hA : (runSched mA mB sched (initStore c)).pcA = WPhase.done)
    (hB : (runSched mA mB sched (initStore c)).pcB = WPhase.done) :
    mA ∈ (runSched mA mB sched (initStore c)).store ∧
    mB ∈ (runSched mA mB sched (initStore c)).store ∧
    (runSched mA mB sched (initStore c)).store.length = c.length + 2 := by
  obtain ⟨h1, h2, _, _, hlen⟩ :=
    storeInv_run mA mB c sched (initStore c) (storeInv_init mA mB c)
  refine ⟨h1 hA, h2 hB, ?_⟩
  rw [hlen, if_pos hA, if_pos hB]

theorem concurrent_appends_no_lost_update_witness :
    "m1" ∈ (runSched "m1" "m2" [false, true, false, true, true] (initStore [])).store ∧
    "m2" ∈ (runSched "m1" "m2" [false, true, false, true, true] (initStore [])).store ∧
    (runSched "m1" "m2" [false, true, false, true, true] (initStore [])).store.length
      = List.length ([] : List String) + 2 :=
  concurrent_appends_no_lost_update [] "m1" "m2" [false, true, false, true, true] rfl rfl
/-- C2: every launched task is observed to completion before
`query_models_with_stage_timeout` returns — on the deadline-exceeded path
(cancelled tasks are awaited, `cancelAcked`) as well as on the
normal-completion path (where every task simply finished). -/
theorem run_stage_all_tasks_observed (tasks : List TaskSpec) (stage_timeout : ℕ) :
    (∀ st ∈ (query_models_with_stage_timeout tasks stage_timeout).2,
      taskDone st = true) ∧
    ((∀ t ∈ tasks, t.finishTime ≤ stage_timeout) →
      ∀ st ∈ (query_models_with_stage_timeout tasks stage_timeout).2,
        ∃ r, st = TaskStatus.completed r) := by
  constructor
  · intro st hst
    simp only [query_models_with_stage_timeout, List.map_map, List.mem_map] at hst
    obtain ⟨t, ht, rfl⟩ := hst
    by_cases hft : t.finishTime ≤ stage_timeout <;>
      simp [settleByDeadline, hft, cancelPendingTask, awaitTask, taskDone]
  · intro hall st hst
    simp only [query_models_with_stage_timeout, List.map_map, List.mem_map] at hst
    obtain ⟨t, ht, rfl⟩ := hst
    refine ⟨taskResult t, ?_⟩
    simp [settleByDeadline, hall t ht, cancelPendingTask, awaitTask]

theorem run_stage_all_tasks_observed_witness :
    taskDone TaskStatus.cancelAcked = true ∧
    (∃ r, TaskStatus.completed (taskResult { model := "m2", finishTime := 1, succeeds := true, content := "hi" })
        = TaskStatus.completed r) :=
  ⟨(run_stage_all_tasks_observed
      [{ model := "m1", finishTime := 5, succeeds := true, content := "late" },
       { model := "m2", finishTime := 1, succeeds := true, content := "hi" }] 2).1
      TaskStatus.cancelAcked (by decide),
   (run_stage_all_tasks_observed
      [{ model := "m2", finishTime := 1, succeeds := true, content := "hi" }] 2).2
      (by decide)
      (TaskStatus.completed (taskResult { model := "m2", finishTime := 1, succeeds := true, content := "hi" }))
      (by decide)⟩
theorem persistedMsgs_nil : persistedMsgs [] = [] := rfl

theorem persistedMsgs_singleton_emit (e : Event) :
    persistedMsgs [Action.emit e] = [] := rfl

theorem persistedMsgs_cons_emit (e : Event) (xs : List Action) :
    persistedMsgs (Action.emit e :: xs) = persistedMsgs xs := rfl

theorem persistedMsgs_cons_reraise (xs : List Action) :
    persistedMsgs (Action.reraiseCancellation :: xs) = persistedMsgs xs := rfl

theorem completeEv_not_mem_eventsOf_take_emits (rs : List ModelResult) (k : ℕ) :
    Event.completeEv ∉ eventsOf
      (List.take k (rs.map (fun r => Action.emit (Event.stage1_result r)))) := by
  rw [← List.map_take, eventsOf_stage1_emits]
  intro hmem
  obtain ⟨r, hr, habs⟩ := List.mem_map.mp hmem
  exact Event.noConfusion habs

theorem persistedMsgs_singleton_reraise :
    persistedMsgs [Action.reraiseCancellation] = [] := rfl

theorem persistedMsgs_pair_emit (e1 e2 : Event) :
    persistedMsgs [Action.emit e1, Action.emit e2] = [] := rfl

theorem eventsOf_nil : eventsOf [] = [] := rfl

theorem eventsOf_cons_emit (e : Event) (xs : List Action) :
    eventsOf (Action.emit e :: xs) = e :: eventsOf xs := rfl

theorem eventsOf_cons_persist (m : AssistantMsg) (xs : List Action) :
    eventsOf (Action.persist m :: xs) = eventsOf xs := rfl

theorem eventsOf_cons_reraise (xs : List Action) :
    eventsOf (Action.reraiseCancellation :: xs) = eventsOf xs := rfl

theorem eventsOf_stage1Actions (rs : List ModelResult) :
    eventsOf (stage1Actions rs)
      = Event.stage1_start :: (rs.map Event.stage1_result ++ [Event.stage1_complete]) := by
  unfold stage1Actions
  rw [← List.singleton_append, eventsOf_append, eventsOf_append,
    eventsOf_stage1_emits]
  rfl

theorem trace_getLast?_append (xs ys : List Action) (a : Action)
    (h : ys.getLast? = some a) : (xs ++ ys).getLast? = some a := by
  have hne : ys ≠ [] := by
    intro he
    rw [he] at h
    cases h
  rw [List.getLast?_append_of_ne_nil xs hne, h]

/-- C3: when the client disconnects immediately after `stage1_complete`
with a later stage in flight (any mode that runs one), exactly one
assistant-message append is performed, containing exactly the Stage 1
results already produced — one per configured model. -/
theorem disconnect_after_stage1_persists_exactly_stage1
    (models : List String) (f : String → ModelResult) (s2 : List ModelResult)
    (s3 : ModelResult) (mode : ExecutionMode)
    (hmode : mode ≠ ExecutionMode.chat_only) (hne : models ≠ []) :
    persistedMsgs (send_message_stream mode (models.map f) s2 s3
        CancelPoint.afterStage1).actions
      = [{ stage1 := models.map f, stage2 := none, stage3 := none }] ∧
    (models.map f).length = models.length := by
  refine ⟨?_, by simp⟩
  have hne2 : (models.map f).isEmpty = false := by
    cases models with
    | nil => exact absurd rfl hne
    | cons m ms => rfl
  cases mode with
  | chat_only => exact absurd rfl hmode
  | full =>
      simp [send_message_stream, persistedMsgs_append, persistedMsgs_stage1Actions,
        persistedMsgs_cleanup, persistedMsgs_singleton_emit, persistedMsgs_cons_emit,
        persistedMsgs_cons_reraise, persistedMsgs_singleton_reraise, persistedMsgs_nil, hne2]
  | chat_ranking =>
      simp [send_message_stream, persistedMsgs_append, persistedMsgs_stage1Actions,
        persistedMsgs_cleanup, persistedMsgs_singleton_emit, persistedMsgs_cons_emit,
        persistedMsgs_cons_reraise, persistedMsgs_singleton_reraise, persistedMsgs_nil, hne2]

theorem disconnect_after_stage1_persists_exactly_stage1_witness :
    persistedMsgs (send_message_stream ExecutionMode.full
        (["a", "b"].map (fun m => { model := m, content := "r", ok := true, error := none }))
        [] { model := "ch", content := "x", ok := true, error := none }
        CancelPoint.afterStage1).actions
      = [{ stage1 := ["a", "b"].map (fun m => { model := m, content := "r", ok := true, error := none }),
           stage2 := none, stage3 := none }] ∧
    (["a", "b"].map (fun m =>
        ({ model := m, content := "r", ok := true, error := none } : ModelResult))).length
      = ["a", "b"].length :=
  disconnect_after_stage1_persists_exactly_stage1 ["a", "b"]
    (fun m => { model := m, content := "r", ok := true, error := none })
    [] { model := "ch", content := "x", ok := true, error := none }
    ExecutionMode.full (by decide) (by decide)

/-- C4: every cancellation of a streaming request is re-propagated after
the persistence cleanup runs: the re-raise is the last action of the trace
(so every persist precedes it), and a cancelled run never emits the
terminal `complete` event — never observed upstream as a success. -/
theorem cancellation_reraised_after_cleanup (mode : ExecutionMode)
    (s1 s2 : List ModelResult) (s3 : ModelResult) (c : CancelPoint)
    (hc : c ≠ CancelPoint.noCancel) :
    (send_message_stream mode s1 s2 s3 c).actions.getLast?
      = some Action.reraiseCancellation ∧
    Event.completeEv ∉ eventsOf (send_message_stream mode s1 s2 s3 c).actions := by
  have hlast : ∀ m' : ExecutionMode, ∀ c' : CancelPoint, c' ≠ CancelPoint.noCancel →
      (send_message_stream m' s1 s2 s3 c').actions.getLast?
        = some Action.reraiseCancellation := by
    intro m' c' hc'
    cases c' with
    | noCancel => exact absurd rfl hc'
    | duringStage1 k =>
        simp only [send_message_stream]
        rw [← List.singleton_append]
        repeat (first | rfl | apply trace_getLast?_append)
    | afterStage1 =>
        cases m' <;> (simp only [send_message_stream]
                      repeat (first | rfl | apply trace_getLast?_append))
    | afterStage2 =>
        cases m' <;> (simp only [send_message_stream]
                      repeat (first | rfl | apply trace_getLast?_append))
  refine ⟨hlast mode c hc, ?_⟩
  cases c with
  | noCancel => exact absurd rfl hc
  | duringStage1 k =>
      simp [send_message_stream, eventsOf_append, eventsOf_cons_emit,
        eventsOf_cleanup, eventsOf_stage1_emits, eventsOf_cons_reraise,
        eventsOf_nil, List.mem_cons, List.mem_append, List.mem_map,
        completeEv_not_mem_eventsOf_take_emits s1 k]
  | afterStage1 =>
      cases mode <;>
        simp [send_message_stream, eventsOf_append, eventsOf_cons_emit,
          eventsOf_cleanup, eventsOf_stage1Actions, eventsOf_cons_reraise,
          eventsOf_nil, List.mem_cons, List.mem_append, List.mem_map]
  | afterStage2 =>
      cases mode <;>
        simp [send_message_stream, eventsOf_append, eventsOf_cons_emit,
          eventsOf_cleanup, eventsOf_stage1Actions, eventsOf_cons_reraise,
          eventsOf_nil, List.mem_cons, List.mem_append, List.mem_map]

theorem cancellation_reraised_after_cleanup_witness :
    (send_message_stream ExecutionMode.full
        [{ model := "a", content := "r", ok := true, error := none }] []
        { model := "ch", content := "x", ok := true, error := none }
        CancelPoint.afterStage1).actions.getLast?
      = some Action.reraiseCancellation ∧
    Event.completeEv ∉ eventsOf (send_message_stream ExecutionMode.full
        [{ model := "a", content := "r", ok := true, error := none }] []
        { model := "ch", content := "x", ok := true, error := none }
        CancelPoint.afterStage1).actions :=
  cancellation_reraised_after_cleanup ExecutionMode.full
    [{ model := "a", content := "r", ok := true, error := none }] []
    { model := "ch", content := "x", ok := true, error := none }
    CancelPoint.afterStage1 (by decide)
/-- C5: in `chat_only` mode — whatever the cancellation behaviour of the
request — the Stage 2 / Stage 3 callables are never invoked, no `stage2_*`
or `stage3_*` event is emitted, and every persisted assistant message
carries Stage 1 output only (`stage2`/`stage3` both absent). -/
theorem chat_only_never_invokes_stage2_stage3 (s1 s2 : List ModelResult)
    (s3 : ModelResult) (c : CancelPoint) :
    (send_message_stream ExecutionMode.chat_only s1 s2 s3 c).stage2Invoked = false ∧
    (send_message_stream ExecutionMode.chat_only s1 s2 s3 c).stage3Invoked = false ∧
    (∀ e ∈ eventsOf (send_message_stream ExecutionMode.chat_only s1 s2 s3 c).actions,
      isStage23Event e = false) ∧
    (∀ m ∈ persistedMsgs (send_message_stream ExecutionMode.chat_only s1 s2 s3 c).actions,
      m.stage2 = none ∧ m.stage3 = none) := by
  cases c with
  | noCancel =>
      refine ⟨rfl, rfl, ?_, ?_⟩
      · intro e he
        cases e <;> try rfl
        all_goals {
          exfalso
          simp only [send_message_stream, eventsOf_append, eventsOf_stage1Actions,
            eventsOf_stage1_emits, eventsOf_cons_emit, eventsOf_cons_reraise,
            eventsOf_cleanup, eventsOf_nil, List.append_nil,
            List.mem_cons, List.mem_append, List.mem_map] at he
          simp at he
        }
      · intro m hm
        simp only [send_message_stream, persistedMsgs_append, persistedMsgs_stage1Actions,
          persistedMsgs_stage1_emits, persistedMsgs_cons_emit, persistedMsgs_cons_reraise,
          persistedMsgs_singleton_emit, persistedMsgs_singleton_reraise, persistedMsgs_nil,
          persistedMsgs_cleanup, List.append_nil, List.nil_append] at hm
        split at hm
        · simp at hm
        · simp at hm
          subst hm
          exact ⟨rfl, rfl⟩
  | duringStage1 k =>
      refine ⟨rfl, rfl, ?_, ?_⟩
      · intro e he
        cases e <;> try rfl
        all_goals {
          exfalso
          simp only [send_message_stream, eventsOf_append, eventsOf_stage1Actions,
            eventsOf_stage1_emits, eventsOf_cons_emit, eventsOf_cons_reraise,
            eventsOf_cleanup, eventsOf_nil, List.append_nil,
            List.mem_cons, List.mem_append, List.mem_map] at he
          simp at he
        }
      · intro m hm
        simp only [send_message_stream, persistedMsgs_append, persistedMsgs_stage1Actions,
          persistedMsgs_stage1_emits, persistedMsgs_cons_emit, persistedMsgs_cons_reraise,
          persistedMsgs_singleton_emit, persistedMsgs_singleton_reraise, persistedMsgs_nil,
          persistedMsgs_cleanup, List.append_nil, List.nil_append] at hm
        split at hm
        · simp at hm
        · simp at hm
          subst hm
          exact ⟨rfl, rfl⟩
  | afterStage1 =>
      refine ⟨rfl, rfl, ?_, ?_⟩
      · intro e he
        cases e <;> try rfl
        all_goals {
          exfalso
          simp only [send_message_stream, eventsOf_append, eventsOf_stage1Actions,
            eventsOf_stage1_emits, eventsOf_cons_emit, eventsOf_cons_reraise,
            eventsOf_cleanup, eventsOf_nil, List.append_nil,
            List.mem_cons, List.mem_append, List.mem_map] at he
          simp at he
        }
      · intro m hm
        simp only [send_message_stream, persistedMsgs_append, persistedMsgs_stage1Actions,
          persistedMsgs_stage1_emits, persistedMsgs_cons_emit, persistedMsgs_cons_reraise,
          persistedMsgs_singleton_emit, persistedMsgs_singleton_reraise, persistedMsgs_nil,
          persistedMsgs_cleanup, List.append_nil, List.nil_append] at hm
        split at hm
        · simp at hm
        · simp at hm
          subst hm
          exact ⟨rfl, rfl⟩
  | afterStage2 =>
      refine ⟨rfl, rfl, ?_, ?_⟩
      · intro e he
        cases e <;> try rfl
        all_goals {
          exfalso
          simp only [send_message_stream, eventsOf_append, eventsOf_stage1Actions,
            eventsOf_stage1_emits, eventsOf_cons_emit, eventsOf_cons_reraise,
            eventsOf_cleanup, eventsOf_nil, List.append_nil,
            List.mem_cons, List.mem_append, List.mem_map] at he
          simp at he
        }
      · intro m hm
        simp only [send_message_stream, persistedMsgs_append, persistedMsgs_stage1Actions,
          persistedMsgs_stage1_emits, persistedMsgs_cons_emit, persistedMsgs_cons_reraise,
          persistedMsgs_singleton_emit, persistedMsgs_singleton_reraise, persistedMsgs_nil,
          persistedMsgs_cleanup, List.append_nil, List.nil_append] at hm
        split at hm
        · simp at hm
        · simp at hm
          subst hm
          exact ⟨rfl, rfl⟩

theorem chat_only_never_invokes_stage2_stage3_witness :
    (send_message_stream ExecutionMode.chat_only
        [{ model := "m1", content := "r1", ok := true, error := none }] []
        { model := "ch", content := "x", ok := true, error := none }
        CancelPoint.noCancel).stage2Invoked = false ∧
    ((({ stage1 := [{ model := "m1", content := "r1", ok := true, error := none }],
         stage2 := none, stage3 := none } : AssistantMsg)).stage2 = none ∧
      (({ stage1 := [{ model := "m1", content := "r1", ok := true, error := none }],
          stage2 := none, stage3 := none } : AssistantMsg)).stage3 = none) :=
  ⟨(chat_only_never_invokes_stage2_stage3
      [{ model := "m1", content := "r1", ok := true, error := none }] []
      { model := "ch", content := "x", ok := true, error := none }
      CancelPoint.noCancel).1,
   (chat_only_never_invokes_stage2_stage3
      [{ model := "m1", content := "r1", ok := true, error := none }] []
      { model := "ch", content := "x", ok := true, error := none }
      CancelPoint.noCancel).2.2.2
      { stage1 := [{ model := "m1", content := "r1", ok := true, error := none }],
        stage2 := none, stage3 := none }
      (by decide)⟩

/-- C6: on normal completion of a full-mode request with all three stages
succeeding, exactly one assistant-message append is issued, and it contains
stage1, stage2 and stage3. -/
theorem full_mode_normal_completion_single_append (s1 s2 : List ModelResult)
    (s3 : ModelResult) (h : s1 ≠ []) :
    persistedMsgs (send_message_stream ExecutionMode.full s1 s2 s3
        CancelPoint.noCancel).actions
      = [{ stage1 := s1, stage2 := some s2, stage3 := some s3 }] := by
  have hne : s1.isEmpty = false := by
    cases s1 with
    | nil => exact absurd rfl h
    | cons r rs => rfl
  simp [send_message_stream, persistedMsgs_append, persistedMsgs_stage1Actions,
    persistedMsgs_cons_emit, persistedMsgs_singleton_emit, persistedMsgs_cleanup,
    persistedMsgs_nil, hne]

theorem full_mode_normal_completion_single_append_witness :
    persistedMsgs (send_message_stream ExecutionMode.full
        [{ model := "m1", content := "r1", ok := true, error := none }]
        [{ model := "m1", content := "rank", ok := true, error := none }]
        { model := "ch", content := "final", ok := true, error := none }
        CancelPoint.noCancel).actions
      = [{ stage1 := [{ model := "m1", content := "r1", ok := true, error := none }],
           stage2 := some [{ model := "m1", content := "rank", ok := true, error := none }],
           stage3 := some { model := "ch", content := "final", ok := true, error := none } }] :=
  full_mode_normal_completion_single_append
    [{ model := "m1", content := "r1", ok := true, error := none }]
    [{ model := "m1", content := "rank", ok := true, error := none }]
    { model := "ch", content := "final", ok := true, error := none }
    (by decide)

/-- C7: the stored assistant-message mapping omits the `stage2` (resp.
`stage3`) key entirely when that stage was skipped (`none`) — the key is
absent rather than present with a null — while `role`, `stage1` and
`metadata`, and the keys of stages that ran, are present with their
payloads. -/
theorem add_assistant_message_omits_skipped_stage_fields
    (s1 : List ModelResult) (s2 : Option (List ModelResult))
    (s3 : Option ModelResult) (md : List (String × String)) :
    (add_assistant_message_fields s1 s2 s3 md).lookup "stage2"
      = s2.map FieldV.resultsV ∧
    (add_assistant_message_fields s1 s2 s3 md).lookup "stage3"
      = s3.map FieldV.resultV ∧
    (add_assistant_message_fields s1 s2 s3 md).lookup "stage1"
      = some (FieldV.resultsV s1) ∧
    (add_assistant_message_fields s1 s2 s3 md).lookup "role"
      = some (FieldV.str "assistant") ∧
    (add_assistant_message_fields s1 s2 s3 md).lookup "metadata"
      = some (FieldV.metaV md) ∧
    (("stage2" ∈ (add_assistant_message_fields s1 s2 s3 md).map Prod.fst)
      ↔ s2.isSome = true) ∧
    (("stage3" ∈ (add_assistant_message_fields s1 s2 s3 md).map Prod.fst)
      ↔ s3.isSome = true) := by
  cases s2 <;> cases s3 <;>
    simp [add_assistant_message_fields, List.lookup]
end LlmCouncil
